import Mathlib

/-!
Verification of the IIF-to-OFX conversion core (`fixofx/ofxtools/iif_converter.py`
and `fixofx/ofxtools/iif_parser.py`) via a shallow embedding in Lean 4.

Python dictionaries holding a transaction are embedded as a record of
`Option String` fields (absence of a key is `none`; `txn.get(k, d)` is
`Option.getD`).  Python exceptions are embedded as the `Except PyErr` monad.
String primitives are re-implemented structurally over `List Char` so that all
definitions are executable and kernel-reducible.
-/

/-- Kinds of Python exceptions that the embedded code can raise. -/
inductive PyErr where
  | valueError (msg : String)
  | indexError
  | keyError
  | attributeError
  deriving DecidableEq, Repr

/-- A parsed calendar date (embedding of a Python `datetime` restricted to the
date part, which is all the converter ever uses). -/
structure PDate where
  year : Nat
  month : Nat
  day : Nat
  deriving DecidableEq, Repr

/-- Embedding of the transaction dictionary built by `IifParser.get_txn_list`
and rewritten by the `_clean_txn_*` methods.  Each canonical key of the dict is
a field; `none` means the key is absent.  The Python key `"Type"` is embedded
as the field `Type'` because `Type` is reserved in Lean. -/
structure Txn where
  Date : Option String := none
  Amount : Option String := none
  Amount2 : Option String := none
  Number : Option String := none
  Type' : Option String := none
  Payee : Option String := none
  Memo : Option String := none
  Category : Option String := none
  Currency : Option String := none
  deriving DecidableEq, Repr

/-- The pieces of converter state written by `_guess_formats` (pass 1). -/
structure GuessState where
  dayfirst : Bool
  curdef : Option String
  deriving DecidableEq, Repr

/-- The statement index `self.txns_by_date`: an insertion-ordered association
list from canonical date to the transactions posted on that date. -/
abbrev TxnIndex := List (String × List Txn)

/-! ## String primitives, embedded structurally over `List Char` -/

/-- Numeric value of a list of decimal digit characters. -/
def natDigits (l : List Char) : Nat :=
  l.foldl (fun a c => a * 10 + (c.toNat - 48)) 0

/-- Embedding of Python `str.strip()`. -/
def pyStrip (s : String) : String :=
  String.mk (((s.data.dropWhile Char.isWhitespace).reverse.dropWhile
    Char.isWhitespace).reverse)

/-- Embedding of Python `str.upper()` (ASCII). -/
def pyUpper (s : String) : String :=
  String.mk (s.data.map Char.toUpper)

/-- Embedding of Python `str.isalpha()`: nonempty and all alphabetic. -/
def pyIsAlpha (s : String) : Bool :=
  !s.data.isEmpty && s.data.all Char.isAlpha

/-- Does the list `h` start with the list `n`?  Embedding of
Python `str.startswith`. -/
def startsList (n : List Char) (h : List Char) : Bool :=
  match n, h with
  | [], _ => true
  | _ :: _, [] => false
  | a :: as, b :: bs => a == b && startsList as bs

/-- Is `n` a contiguous sublist of `h`?  Embedding of Python `x in y` on
strings. -/
def subList (n : List Char) : List Char → Bool
  | [] => n.isEmpty
  | c :: hs => startsList n (c :: hs) || subList n hs

/-- Split a character list on a separator character, keeping empty pieces;
embedding of Python `str.split(c)` (also used to model the tokenisation that
`dateutil` and the tab-separated record grammar perform). -/
def splitOnChar (c : Char) : List Char → List (List Char)
  | [] => [[]]
  | x :: xs =>
    if x = c then [] :: splitOnChar c xs
    else
      match splitOnChar c xs with
      | [] => [[x]]
      | t :: ts => (x :: t) :: ts

/-- Embedding of `re.search("\D", s)`: index of the first non-digit character,
or `none` when every character is a digit (or the string is empty). -/
def reSearchNonDigit : List Char → Option Nat
  | [] => none
  | c :: cs =>
    if c.isDigit then (reSearchNonDigit cs).map (· + 1) else some 0

/-- Embedding of Python `int(s)` restricted to nonnegative digit strings (the
only shape the converter feeds it from a digit prefix); `none` embeds the
`ValueError` that `int("")` raises. -/
def pyIntNat (s : String) : Option Nat :=
  if !s.data.isEmpty && s.data.all Char.isDigit then some (natDigits s.data)
  else none

/-- Does Python `int(s)` succeed?  `int` tolerates surrounding whitespace and a
leading sign. -/
def pyIntAccepts (s : String) : Bool :=
  match (pyStrip s).data with
  | [] => false
  | c :: cs =>
    if c = '-' ∨ c = '+' then !cs.isEmpty && cs.all Char.isDigit
    else (c :: cs).all Char.isDigit

/-- Is the first character of `s` a digit (false for the empty string)? -/
def headIsDigit (s : String) : Bool :=
  match s.data with
  | [] => false
  | c :: _ => c.isDigit

/-- Render a natural number zero-padded to two digits (`%02d`). -/
def pad2 (n : Nat) : String :=
  if n < 10 then "0" ++ toString n else toString n

/-- Render a year zero-padded to four digits (`%Y`). -/
def pad4 (n : Nat) : String :=
  if n < 10 then "000" ++ toString n
  else if n < 100 then "00" ++ toString n
  else if n < 1000 then "0" ++ toString n
  else toString n

/-- Embedding of `datetime.strftime("%Y%m%d")`. -/
def strftimeYMD (d : PDate) : String :=
  pad4 d.year ++ pad2 d.month ++ pad2 d.day

/-! ## Model of `dateutil.parser.parse`

`dateutil` is an external library, not part of this repository.  It is
modelled here restricted to slash-separated all-numeric dates with a four
digit year: the model parses exactly the date shapes the converter's inputs
use, and returns `none` (a `ValueError` in Python) on everything else.  Like
the real library, when the leading number cannot be a month (13..31) it is
accepted as the day even with `dayfirst=False`, and vice versa. -/

/-- A day-or-month numeric token: nonempty, all digits. -/
def numTok (l : List Char) : Option Nat :=
  if !l.isEmpty && l.all Char.isDigit then some (natDigits l) else none

/-- A year token: exactly four digits. -/
def yearTok (l : List Char) : Option Nat :=
  if l.length = 4 && l.all Char.isDigit then some (natDigits l) else none

/-- Resolve the two leading numbers of a date into month and day, honouring
`dayfirst` but swapping when the preferred reading is impossible. -/
def mkDate (x y yr : Nat) (dayfirst : Bool) : Option PDate :=
  if dayfirst then
    if 1 ≤ y ∧ y ≤ 12 ∧ 1 ≤ x ∧ x ≤ 31 then some ⟨yr, y, x⟩
    else if 1 ≤ x ∧ x ≤ 12 ∧ 1 ≤ y ∧ y ≤ 31 then some ⟨yr, x, y⟩
    else none
  else
    if 1 ≤ x ∧ x ≤ 12 ∧ 1 ≤ y ∧ y ≤ 31 then some ⟨yr, x, y⟩
    else if 1 ≤ y ∧ y ≤ 12 ∧ 1 ≤ x ∧ x ≤ 31 then some ⟨yr, y, x⟩
    else none

/-- Model of `dateutil.parser.parse(s, dayfirst=dayfirst)` (see the section
comment above); `none` embeds its `ValueError`. -/
def dateutilParse (s : String) (dayfirst : Bool) : Option PDate :=
  match splitOnChar '/' s.data with
  | [a, b, c] =>
    match numTok a, numTok b, yearTok c with
    | some x, some y, some yr => mkDate x y yr dayfirst
    | _, _, _ => none
  | _ => none

/-- The message of the `ValueError` raised by `_parse_date`. -/
def unrecognizedMsg (s : String) : String :=
  "Unrecognized date format: \x27" ++ s ++ "\x27."

/-- Embedding of `"%s/%s/%s" % (txn_date[0:2], txn_date[2:4], txn_date[4:])`
from `_parse_date`. -/
def slashify (s : String) : String :=
  String.mk (s.data.take 2 ++ ('/' :: (s.data.drop 2).take 2) ++
    ('/' :: s.data.drop 4))

/-- Control flow of `IifConverter._parse_date` up to its single `raise` site:
`some r` is a normal return (`r = none` embeds returning the string
`"UNKNOWN"`), `none` means the final `raise ValueError` is reached. -/
def pyParseDateAux (txn_date : String) (dayfirst : Bool) :
    Option (Option PDate) :=
  if txn_date = "UNKNOWN" then some none
  else if pyIsAlpha txn_date then none
  else
    match dateutilParse txn_date dayfirst with
    | some d => some (some d)
    | none =>
      if txn_date.data.length = 8 ∧ pyIntAccepts txn_date then
        match dateutilParse (slashify txn_date) dayfirst with
        | some d => some (some d)
        | none => none
      else none

/-- Embedding of `IifConverter._parse_date`. -/
def pyParseDate (txn_date : String) (dayfirst : Bool) :
    Except PyErr (Option PDate) :=
  match pyParseDateAux txn_date dayfirst with
  | some r => .ok r
  | none => .error (.valueError (unrecognizedMsg txn_date))

deriving instance DecidableEq for Except

/-! ## Pass 1: `_guess_formats` -/

/-- Embedding of `IifConverter._check_date_format`: find the first non-digit
in the raw date, convert the digit prefix with `int()` (which raises
`ValueError` on an empty prefix), and latch `dayfirst` when the leading
number can only be a day. -/
def checkDateFormat (dayfirst : Bool) (parsed : Option PDate)
    (txn_date : String) : Except PyErr Bool :=
  match reSearchNonDigit txn_date.data with
  | some i =>
    match pyIntNat (String.mk (txn_date.data.take i)) with
    | some maybe_day =>
      .ok (if parsed.isSome ∧ 13 ≤ maybe_day ∧ maybe_day ≤ 31 then true
           else dayfirst)
    | none => .error (.valueError "invalid literal for int() with base 10")
  | none => .ok dayfirst

/-- One iteration of the `_guess_formats` loop. -/
def guessFormatsStep (st : GuessState) (txn : Txn) :
    Except PyErr GuessState := do
  let txn_date := txn.Date.getD "UNKNOWN"
  let txn_currency := txn.Currency.getD "UNKNOWN"
  let parsed ← pyParseDate txn_date false
  let df ← checkDateFormat st.dayfirst parsed txn_date
  let cd := if st.curdef = none ∧ txn_currency = "^EUR" then some "EUR"
            else st.curdef
  pure ⟨df, cd⟩

/-- Embedding of `IifConverter._guess_formats`. -/
def guessFormats (st : GuessState) (txns : List Txn) :
    Except PyErr GuessState :=
  txns.foldlM guessFormatsStep st

/-! ## Pass 2: the `_clean_txn_*` methods -/

/-- The `IifConverter.txn_types` alias table, in source (dict-insertion)
order. -/
def txnTypes : List (String × String) :=
  [("ACH", "ACH"), ("CHECK CARD", "POS"), ("CREDIT", "CREDIT"),
   ("DBT", "DEBIT"), ("DEBIT", "DEBIT"), ("INT", "INT"), ("DIV", "DIV"),
   ("FEE", "FEE"), ("SRVCHG", "SRVCHG"), ("DEP", "DEP"), ("DEPOSIT", "DEP"),
   ("ATM", "ATM"), ("POS", "POS"), ("XFER", "XFER"), ("CHECK", "CHECK"),
   ("PAYMENT", "PAYMENT"), ("CASH", "CASH"), ("DIRECTDEP", "DIRECTDEP"),
   ("DIRECTDEBIT", "DIRECTDEBIT"), ("REPEATPMT", "REPEATPMT"),
   ("OTHER", "OTHER")]

/-- The canonical value the alias table stores for a key. -/
def aliasValue (k : String) : Option String :=
  (txnTypes.find? (fun p => p.1 == k)).map (fun p => p.2)

/-- Embedding of `IifConverter._clean_txn_date`. -/
def cleanTxnDate (dayfirst : Bool) (txn : Txn) : Except PyErr Txn :=
  let txn_date := pyStrip (txn.Date.getD "UNKNOWN")
  if txn_date ≠ "UNKNOWN" then
    match pyParseDate txn_date dayfirst with
    | .ok (some d) => .ok { txn with Date := some (strftimeYMD d) }
    | .ok none => .error .attributeError
    | .error e => .error e
  else .ok { txn with Date := some "UNKNOWN" }

/-- Remove the first occurrence of a character; embedding of
`s.replace('$', '', 1)`. -/
def removeFirstChar (c : Char) : List Char → List Char
  | [] => []
  | x :: xs => if x = c then xs else x :: removeFirstChar c xs

/-- Parse a plain decimal literal into (negative?, digits value, scale);
models the `Decimal(txn_amount)` constructor restricted to the plain
`[+-]digits[.digits]` literals the converter feeds it (`none` embeds its
exception, which the bare `except:` absorbs). -/
def parseDecimal? (s : String) : Option (Bool × Nat × Nat) :=
  let core :=
    match s.data with
    | '-' :: rest => (true, rest)
    | '+' :: rest => (false, rest)
    | d => (false, d)
  match splitOnChar '.' core.2 with
  | [i] =>
    if !i.isEmpty && i.all Char.isDigit then some (core.1, natDigits i, 0)
    else none
  | [i, f] =>
    if (i.all Char.isDigit && f.all Char.isDigit) &&
        !(i.isEmpty && f.isEmpty) then
      some (core.1, natDigits (i ++ f), f.length)
    else none
  | _ => none

/-- Round `n / 10^scale` to cents with banker's rounding (the default
`ROUND_HALF_EVEN` of `Decimal.quantize`). -/
def roundHalfEven (n scale : Nat) : Nat :=
  if scale ≤ 2 then n * 10 ^ (2 - scale)
  else
    let p := 10 ^ (scale - 2)
    let q := n / p
    let r := n % p
    if 2 * r > p then q + 1
    else if 2 * r < p then q
    else if q % 2 = 0 then q else q + 1

/-- Render a signed amount of cents the way `str(Decimal...)` does. -/
def renderCents (neg : Bool) (cents : Nat) : String :=
  (if neg then "-" else "") ++ toString (cents / 100) ++ "." ++
    pad2 (cents % 100)

/-- Embedding of `str(Decimal(s).quantize(Decimal('.01')))`; `none` when the
`Decimal` constructor raises (absorbed by the bare `except:`). -/
def decimalQuantize2 (s : String) : Option String :=
  (parseDecimal? s).map (fun t => renderCents t.1 (roundHalfEven t.2.1 t.2.2))

/-- Embedding of `IifConverter._clean_txn_amount`. -/
def cleanTxnAmount (txn : Txn) : Except PyErr Txn :=
  let txn_amount := txn.Amount.getD "00.00"
  let txn_amount2 := txn.Amount2.getD "00.00"
  if txn_amount = "-" ∨ txn_amount = " " then
    .error (.valueError "Transaction amount is undefined.")
  else
    let a1 := if txn_amount = "00.00" then txn_amount2 else txn_amount
    let a2 := pyStrip a1
    let a3 := String.mk (removeFirstChar '$' a2.data)
    match a3.data.getLast? with
    | none => .error .indexError
    | some last =>
      let a4 := if last = '-' then "-" ++ String.mk a3.data.dropLast else a3
      let a5 := match decimalQuantize2 a4 with
                | some q => q
                | none => a4
      .ok { txn with Amount := some a5 }

/-- Embedding of `IifConverter._clean_txn_number`.  The final branch mirrors
`all_digits.search(txn_number)` with `all_digits = re.compile("\d+")`: a
`search` that succeeds whenever the number contains at least one digit. -/
def cleanTxnNumber (accttype : String) (txn : Txn) : Txn :=
  let txn_number := pyStrip (txn.Number.getD "UNKNOWN")
  if txn_number = "N/A" then { txn with Number := none }
  else if startsList "XXXX-XXXX-XXXX".data txn_number.data then
    { txn with Number := none }
  else if txn_number ≠ "UNKNOWN" ∧ accttype = "CREDITCARD" then
    { txn with Number := none }
  else if txn_number = "0000000000" ∧ accttype ≠ "CREDITCARD" then
    { txn with Number := none }
  else if txn_number ≠ "UNKNOWN" ∧ txn_number.data.any Char.isDigit then
    { txn with Type' := some "CHECK" }
  else txn

/-- Embedding of `IifConverter._clean_txn_type`.  Note that both assignments
store the matching key (`txn_type.upper()` resp. `typestr`), not the alias
table's value. -/
def cleanTxnType (txn : Txn) : Txn :=
  let txn_type := txn.Type'.getD "UNKNOWN"
  if txnTypes.any (fun p => p.1 == pyUpper txn_type) then
    { txn with Type' := some (pyUpper txn_type) }
  else
    let txn_memo := txn.Memo.getD "UNKNOWN"
    let txn_category := txn.Category.getD "UNKNOWN"
    match txnTypes.find? (fun p =>
        subList p.1.data (pyUpper txn_category).data ||
        subList p.1.data (pyUpper txn_memo).data) with
    | some p => { txn with Type' := some p.1 }
    | none => txn

/-- Embedding of `IifConverter._txn_sign`. -/
def txnSign (txn_amount : String) : String :=
  if startsList "-".data txn_amount.data then "debit" else "credit"

/-- Embedding of `IifConverter._clean_txn_payee`. -/
def cleanTxnPayee (accttype : String) (txn : Txn) : Except PyErr Txn :=
  let txn_payee := txn.Payee.getD "UNKNOWN"
  let txn_memo := txn.Memo.getD "UNKNOWN"
  let txn_category := txn.Category.getD "UNKNOWN"
  let txn_number := txn.Number.getD "UNKNOWN"
  let txn_type := txn.Type'.getD "UNKNOWN"
  let txn_amount := txn.Amount.getD "UNKNOWN"
  let txn_sign := txnSign txn_amount
  let t1 :=
    if txn_payee = "UNKNOWN" then
      if txn_number ≠ "UNKNOWN" ∧ (accttype = "CHECKING" ∨
          accttype = "SAVINGS") then
        { txn with Payee := some ("Check #" ++ txn_number),
                   Type' := some "CHECK" }
      else if txn_type = "INT" ∧ txn_sign = "debit" then
        { txn with Payee := some "Interest paid" }
      else if txn_type = "INT" ∧ txn_sign = "credit" then
        { txn with Payee := some "Interest earned" }
      else if txn_type = "ATM" ∧ txn_sign = "debit" then
        { txn with Payee := some "ATM Withdrawal" }
      else if txn_type = "ATM" ∧ txn_sign = "credit" then
        { txn with Payee := some "ATM Deposit" }
      else if txn_type = "POS" ∧ txn_sign = "debit" then
        { txn with Payee := some "Point of Sale Payment" }
      else if txn_type = "POS" ∧ txn_sign = "credit" then
        { txn with Payee := some "Point of Sale Credit" }
      else if txn_memo ≠ "UNKNOWN" then { txn with Payee := some txn_memo }
      else if txn_category ≠ "UNKNOWN" then
        { txn with Payee := some txn_category }
      else if txn_type = "UNKNOWN" ∧ txn_sign = "debit" then
        { txn with Payee := some "Other Debit", Type' := some "DEBIT" }
      else if txn_type = "UNKNOWN" ∧ txn_sign = "credit" then
        { txn with Payee := some "Other Credit", Type' := some "CREDIT" }
      else txn
    else txn
  let t2 :=
    if t1.Type' = none ∧ txn_sign = "debit" then
      { t1 with Type' := some "DEBIT" }
    else if t1.Type' = none ∧ txn_sign = "credit" then
      { t1 with Type' := some "CREDIT" }
    else t1
  if txn_memo ≠ "UNKNOWN" then
    match t2.Payee with
    | some p => .ok { t2 with Payee := some (p ++ " (" ++ txn_memo ++ ")") }
    | none => .error .keyError
  else .ok t2

/-- Embedding of `IifConverter._clean_txn`: the five cleanups in source
order. -/
def cleanTxn (dayfirst : Bool) (accttype : String) (txn : Txn) :
    Except PyErr Txn := do
  let t1 ← cleanTxnDate dayfirst txn
  let t2 ← cleanTxnAmount t1
  let t3 := cleanTxnNumber accttype t2
  let t4 := cleanTxnType t3
  cleanTxnPayee accttype t4

/-! ## `_clean_txn_list`: normalization loop, statement index and date range -/

/-- Store a cleaned transaction in the statement index:
`txns_by_date.get(d, []) + [txn]`, written back under `d` (dict insertion
order: an existing key keeps its position, a new key is appended). -/
def indexInsert (m : TxnIndex) (d : String) (t : Txn) : TxnIndex :=
  if m.any (fun p => p.1 == d) then
    m.map (fun p => if p.1 == d then (p.1, p.2 ++ [t]) else p)
  else m ++ [(d, [t])]

/-- One iteration of the `_clean_txn_list` loop: clean the transaction and
index it; a `ValueError` from `_clean_txn` is caught and the transaction is
skipped, any other exception propagates. -/
def cleanStep (dayfirst : Bool) (accttype : String) (m : TxnIndex)
    (txn : Txn) : Except PyErr TxnIndex :=
  match cleanTxn dayfirst accttype txn with
  | .ok t =>
    match t.Date with
    | some d => .ok (indexInsert m d t)
    | none => .error .keyError
  | .error (.valueError _) => .ok m
  | .error e => .error e

/-- Codepoint-lexicographic order on character lists: embedding of Python
string comparison, used by `date_list.sort()`. -/
def charListLe : List Char → List Char → Bool
  | [], _ => true
  | _ :: _, [] => false
  | a :: as, b :: bs =>
    if a.toNat = b.toNat then charListLe as bs
    else decide (a.toNat < b.toNat)

/-- Lexicographic order on strings (Python `<=` on `str`). -/
def strLe (a b : String) : Bool := charListLe a.data b.data

/-- Insert a string into an already sorted list. -/
def insertSorted (a : String) : List String → List String
  | [] => [a]
  | b :: bs => if strLe a b then a :: b :: bs else b :: insertSorted a bs

/-- Insertion sort on strings: embedding of Python `list.sort()` (any
comparison sort computes the same sorted list). -/
def sortStr : List String → List String
  | [] => []
  | a :: as => insertSorted a (sortStr as)

/-- Result state written by `_clean_txn_list`: `self.txns_by_date`,
`self.start_date`, `self.end_date`. -/
structure CleanResult where
  txns_by_date : TxnIndex
  start_date : String
  end_date : String
  deriving DecidableEq, Repr

/-- Embedding of `IifConverter._clean_txn_list`.  `today` embeds
`strftime("%Y%m%d", localtime())`, the external clock read used when the
input transaction list is empty.  Note the guard is `len(txn_list) > 0`
(the raw input list), and `date_list[0]` raises `IndexError` when the index
is empty although the input was not. -/
def cleanTxnList (dayfirst : Bool) (accttype : String) (today : String)
    (txns : List Txn) : Except PyErr CleanResult := do
  let idx ← txns.foldlM (cleanStep dayfirst accttype) []
  if txns.length > 0 then
    match sortStr (idx.map Prod.fst) with
    | [] => .error .indexError
    | d :: rest => .ok ⟨idx, d, (d :: rest).getLastD d⟩
  else
    .ok ⟨idx, today, today⟩

/-! ## `IifConverter.__init__` -/

/-- Converter attributes relevant to the pipeline after construction.
`start_date`/`end_date` are `Option` because `__init__` never assigns these
attributes (only `_clean_txn_list` does). -/
structure ConverterState where
  dayfirst : Bool
  curdef : Option String
  accttype : String
  txns_by_date : TxnIndex
  start_date : Option String
  end_date : Option String
  deriving DecidableEq, Repr

/-- Embedding of `IifConverter.__init__` from the extracted transaction list
on: it initialises `txns_by_date = {}`, runs `_guess_formats`, and stops —
the `self._clean_txn_list(txn_list)` call on line 105 of the source is
commented out, so the index stays empty and `start_date`/`end_date` are never
set. -/
def iifConverterInit (accttype : String) (curdef : Option String)
    (dayfirst : Bool) (txnList : List Txn) : Except PyErr ConverterState := do
  let g ← guessFormats ⟨dayfirst, curdef⟩ txnList
  pure ⟨g.dayfirst, g.curdef, accttype, [], none, none⟩

/-! ## Projections used to state concrete test cases -/

/-- Did the embedded computation finish without an exception? -/
def isOkE : Except PyErr CleanResult → Bool
  | .ok _ => true
  | .error _ => false

/-- The date keys of the statement index of a successful conversion. -/
def resultKeys : Except PyErr CleanResult → List String
  | .ok r => r.txns_by_date.map Prod.fst
  | .error _ => []

/-- Field projections of a cleaned transaction. -/
def resDate : Except PyErr Txn → Option String
  | .ok t => t.Date
  | .error _ => none

/-- Amount of a cleaned transaction. -/
def resAmount : Except PyErr Txn → Option String
  | .ok t => t.Amount
  | .error _ => none

/-- Type of a cleaned transaction. -/
def resType : Except PyErr Txn → Option String
  | .ok t => t.Type'
  | .error _ => none

/-- Payee of a cleaned transaction. -/
def resPayee : Except PyErr Txn → Option String
  | .ok t => t.Payee
  | .error _ => none

/-! ## The record grammar's field action (`iif_parser.py`) -/

/-- Embedding of the `dropQuotes` parse action: it indexes `tok[0]` and
`tok[-1]` unconditionally, so an empty token raises `IndexError`; returning
`none` embeds the Python `return None` that keeps the token unchanged. -/
def dropQuotes (tok : String) : Except PyErr (Option String) :=
  match tok.data with
  | [] => .error .indexError
  | c :: cs =>
    let lst := (c :: cs).getLastD c
    let sq := Char.ofNat 39
    if (c = '"' ∧ lst = '"') ∨ (c = sq ∧ lst = sq) then
      .ok (some (String.mk ((c :: cs).drop 1).dropLast))
    else .ok none

/-- Apply the `dropQuotes` parse action to one matched `item` token, as
pyparsing does: a `None` result keeps the original token. -/
def applyItemAction (f : String) : Except PyErr String :=
  match dropQuotes f with
  | .ok (some s) => .ok s
  | .ok none => .ok f
  | .error e => .error e

/-- Run the `item` parse action over the fields of one record, left to right,
as pyparsing matches `delimitedList(item, sep)`; the first exception raised
by a parse action propagates out of `parseString`. -/
def parseRecordFields : List String → Except PyErr (List String)
  | [] => .ok []
  | f :: fs => do
    let v ← applyItemAction f
    let rest ← parseRecordFields fs
    pure (v :: rest)

/-- Tokenise one record line into its tab-separated fields, as
`delimitedList(item, Suppress('\t'))` does with `item = Regex("[^\t\r\n]*")`:
fields are the maximal tab-free runs, so adjacent tabs (or a trailing tab)
yield an empty field. -/
def splitFields (line : String) : List String :=
  (splitOnChar '\t' line.data).map String.mk

/-! ## Helper lemmas about the date parser -/

theorem splitOnChar_ne_nil (c : Char) (l : List Char) :
    splitOnChar c l ≠ [] := by
  induction l with
  | nil => simp [splitOnChar]
  | cons x xs ih =>
    simp only [splitOnChar]
    split
    · simp
    · cases h : splitOnChar c xs with
      | nil => simp
      | cons t ts => simp

theorem splitOnChar_head (c : Char) (l : List Char) :
    (splitOnChar c l).head? = some (l.takeWhile (fun x => !(x == c))) := by
  induction l with
  | nil => simp [splitOnChar]
  | cons x xs ih =>
    simp only [splitOnChar, List.takeWhile]
    by_cases hx : x = c
    · simp [hx]
    · rw [if_neg hx]
      cases h : splitOnChar c xs with
      | nil => exact absurd h (splitOnChar_ne_nil c xs)
      | cons t ts =>
        rw [h] at ih
        simp only [List.head?_cons, Option.some.injEq] at ih
        have hbeq : (x == c) = false := beq_false_of_ne hx
        simp [hbeq, ih]

theorem dateutilParse_head_nondigit (s : String) (df : Bool) (c : Char)
    (rest : List Char) (hdata : s.data = c :: rest)
    (hc : c.isDigit = false) : dateutilParse s df = none := by
  unfold dateutilParse
  rw [hdata]
  cases hs : splitOnChar '/' (c :: rest) with
  | nil => exact absurd hs (splitOnChar_ne_nil _ _)
  | cons a ts =>
    have ha : a = (c :: rest).takeWhile (fun x => !(x == '/')) := by
      have hh := splitOnChar_head '/' (c :: rest)
      rw [hs] at hh
      simpa using hh
    have hnt : numTok a = none := by
      by_cases hcs : c = '/'
      · have : a = [] := by
          rw [ha]
          simp [List.takeWhile, hcs]
        simp [this, numTok]
      · have hbeq : (c == '/') = false := beq_false_of_ne hcs
        have : a = c :: rest.takeWhile (fun x => !(x == '/')) := by
          rw [ha]; simp [List.takeWhile, hbeq]
        simp [this, numTok, List.all_cons, hc]
    match ts with
    | [] => rfl
    | [b] => rfl
    | [b, cc] => simp [hnt]
    | b :: cc :: d :: ds => rfl

theorem pyParseDate_error_eq (s : String) (df : Bool) (e : PyErr)
    (h : pyParseDate s df = .error e) :
    e = .valueError (unrecognizedMsg s) := by
  unfold pyParseDate at h
  cases ha : pyParseDateAux s df with
  | some r => rw [ha] at h; exact absurd h (by simp)
  | none =>
    rw [ha] at h
    injection h with h
    exact h.symm

theorem pyParseDate_ok_none (s : String) (df : Bool)
    (h : pyParseDate s df = .ok none) : s = "UNKNOWN" := by
  have haux : pyParseDateAux s df = some none := by
    cases ha : pyParseDateAux s df with
    | some r =>
      unfold pyParseDate at h
      rw [ha] at h
      injection h with h
      rw [h]
    | none =>
      unfold pyParseDate at h
      rw [ha] at h
      exact absurd h (by simp)
  by_contra hne
  unfold pyParseDateAux at haux
  rw [if_neg hne] at haux
  split at haux
  · simp at haux
  · split at haux
    · simp at haux
    · split at haux
      · split at haux
        · simp at haux
        · simp at haux
      · simp at haux

theorem pyParseDate_head_nondigit (s : String) (df : Bool)
    (hne : s ≠ "UNKNOWN") (h : headIsDigit s = false) :
    pyParseDate s df = .error (.valueError (unrecognizedMsg s)) := by
  have haux : pyParseDateAux s df = none := by
    unfold pyParseDateAux
    rw [if_neg hne]
    split
    · rfl
    · cases hdata : s.data with
      | nil =>
        have hd : dateutilParse s df = none := by
          unfold dateutilParse
          rw [hdata]
          rfl
        have hlen : ¬(([] : List Char).length = 8 ∧ pyIntAccepts s = true) := by
          simp
        simp only [hd]
        rw [if_neg hlen]
      | cons c rest =>
        have hc : c.isDigit = false := by
          unfold headIsDigit at h
          rw [hdata] at h
          exact h
        have hd : dateutilParse s df = none :=
          dateutilParse_head_nondigit s df c rest hdata hc
        simp only [hd]
        by_cases h8 : (c :: rest).length = 8 ∧ pyIntAccepts s = true
        · have hslash : (slashify s).data = c :: (rest.take 1 ++
              ('/' :: (s.data.drop 2).take 2 ++ ('/' :: s.data.drop 4))) := by
            simp [slashify, hdata, List.take]
          have hd2 : dateutilParse (slashify s) df = none :=
            dateutilParse_head_nondigit (slashify s) df c _ hslash hc
          rw [if_pos h8]
          simp only [hd2]
        · rw [if_neg h8]
  unfold pyParseDate
  rw [haux]

theorem guessFormatsStep_parse_error (st : GuessState) (t : Txn) (e : PyErr)
    (h : pyParseDate (t.Date.getD "UNKNOWN") false = .error e) :
    guessFormatsStep st t = .error e := by
  simp only [guessFormatsStep]
  rw [h]
  rfl

/-! ## Helper lemmas about the lexicographic sort -/

theorem charListLe_refl (l : List Char) : charListLe l l = true := by
  induction l with
  | nil => rfl
  | cons a as ih => simp [charListLe, ih]

theorem charListLe_total (x y : List Char) :
    charListLe x y = true ∨ charListLe y x = true := by
  induction x generalizing y with
  | nil => left; rfl
  | cons a as ih =>
    cases y with
    | nil => right; rfl
    | cons b bs =>
      by_cases hab : a.toNat = b.toNat
      · cases ih bs with
        | inl h => left; simp [charListLe, hab, h]
        | inr h => right; simp [charListLe, hab.symm, h]
      · have hba : ¬b.toNat = a.toNat := fun hh => hab hh.symm
        cases Nat.lt_or_ge a.toNat b.toNat with
        | inl h => left; simp [charListLe, hab, h]
        | inr h =>
          have hlt : b.toNat < a.toNat := by omega
          right; simp [charListLe, hba, hlt]

theorem charListLe_trans : ∀ x y z : List Char, charListLe x y = true →
    charListLe y z = true → charListLe x z = true := by
  intro x
  induction x with
  | nil => intro y z _ _; rfl
  | cons a as ih =>
    intro y z h1 h2
    cases y with
    | nil => simp [charListLe] at h1
    | cons b bs =>
      cases z with
      | nil => simp [charListLe] at h2
      | cons c cs =>
        simp only [charListLe] at h1 h2 ⊢
        by_cases hab : a.toNat = b.toNat
        · rw [if_pos hab] at h1
          by_cases hbc : b.toNat = c.toNat
          · rw [if_pos hbc] at h2
            rw [if_pos (hab.trans hbc)]
            exact ih bs cs h1 h2
          · rw [if_neg hbc] at h2
            have h2' : b.toNat < c.toNat := of_decide_eq_true h2
            have hac : a.toNat < c.toNat := by omega
            rw [if_neg (Nat.ne_of_lt hac)]
            exact decide_eq_true hac
        · rw [if_neg hab] at h1
          have h1' : a.toNat < b.toNat := of_decide_eq_true h1
          by_cases hbc : b.toNat = c.toNat
          · have hac : a.toNat < c.toNat := by omega
            rw [if_neg (Nat.ne_of_lt hac)]
            exact decide_eq_true hac
          · rw [if_neg hbc] at h2
            have h2' : b.toNat < c.toNat := of_decide_eq_true h2
            have hac : a.toNat < c.toNat := by omega
            rw [if_neg (Nat.ne_of_lt hac)]
            exact decide_eq_true hac

theorem strLe_refl (s : String) : strLe s s = true := charListLe_refl s.data

theorem strLe_total (a b : String) : strLe a b = true ∨ strLe b a = true :=
  charListLe_total a.data b.data

theorem strLe_trans (a b c : String) (h1 : strLe a b = true)
    (h2 : strLe b c = true) : strLe a c = true :=
  charListLe_trans a.data b.data c.data h1 h2

theorem mem_insertSorted (x a : String) (l : List String) :
    x ∈ insertSorted a l ↔ x = a ∨ x ∈ l := by
  induction l with
  | nil => simp [insertSorted]
  | cons b bs ih =>
    simp only [insertSorted]
    split
    · simp [List.mem_cons]
    · simp [List.mem_cons, ih]
      tauto

theorem mem_sortStr (x : String) (l : List String) :
    x ∈ sortStr l ↔ x ∈ l := by
  induction l with
  | nil => simp [sortStr]
  | cons a as ih => simp [sortStr, mem_insertSorted, ih, List.mem_cons]

theorem pairwise_insertSorted (a : String) (l : List String)
    (h : l.Pairwise (fun p q => strLe p q = true)) :
    (insertSorted a l).Pairwise (fun p q => strLe p q = true) := by
  induction l with
  | nil => simp [insertSorted]
  | cons b bs ih =>
    rw [List.pairwise_cons] at h
    obtain ⟨hb, hbs⟩ := h
    simp only [insertSorted]
    split
    · rename_i hab
      rw [List.pairwise_cons]
      refine ⟨?_, ?_⟩
      · intro x hx
        rcases List.mem_cons.mp hx with rfl | hx'
        · exact hab
        · exact strLe_trans a b x hab (hb x hx')
      · rw [List.pairwise_cons]
        exact ⟨hb, hbs⟩
    · rename_i hab
      have hba : strLe b a = true := by
        cases strLe_total a b with
        | inl h' => exact absurd h' hab
        | inr h' => exact h'
      rw [List.pairwise_cons]
      refine ⟨?_, ih hbs⟩
      intro x hx
      rcases (mem_insertSorted x a bs).mp hx with rfl | hx'
      · exact hba
      · exact hb x hx'

theorem pairwise_sortStr (l : List String) :
    (sortStr l).Pairwise (fun p q => strLe p q = true) := by
  induction l with
  | nil => simp [sortStr]
  | cons a as ih => exact pairwise_insertSorted a (sortStr as) ih

theorem getLastD_mem (a : String) (l : List String) (d : String) :
    (a :: l).getLastD d ∈ a :: l := by
  induction l generalizing a d with
  | nil => simp [List.getLastD]
  | cons b bs ih =>
    rw [List.getLastD_cons]
    exact List.mem_cons_of_mem a (ih b a)

theorem pairwise_le_getLastD (l : List String) :
    ∀ (a d : String), (a :: l).Pairwise (fun p q => strLe p q = true) →
    ∀ x ∈ a :: l, strLe x ((a :: l).getLastD d) = true := by
  induction l with
  | nil =>
    intro a d _ x hx
    rcases List.mem_cons.mp hx with rfl | hx'
    · simpa [List.getLastD] using strLe_refl x
    · simp at hx'
  | cons b bs ih =>
    intro a d h x hx
    rw [List.pairwise_cons] at h
    obtain ⟨ha, htail⟩ := h
    rw [List.getLastD_cons]
    rcases List.mem_cons.mp hx with rfl | hx'
    · exact ha _ (getLastD_mem b bs x)
    · exact ih b x htail _ hx'

theorem pairwise_head_le (a : String) (l : List String)
    (h : (a :: l).Pairwise (fun p q => strLe p q = true)) :
    ∀ x ∈ a :: l, strLe a x = true := by
  intro x hx
  rcases List.mem_cons.mp hx with rfl | hx'
  · exact strLe_refl x
  · exact (List.pairwise_cons.mp h).1 x hx'

/-! ## Helper lemmas about the exception monad and the cleanup chain -/

theorem except_bind_ok {α β : Type} (a : α) (f : α → Except PyErr β) :
    (Except.ok a >>= f) = f a := rfl

theorem except_bind_error {α β : Type} (e : PyErr)
    (f : α → Except PyErr β) :
    ((Except.error e : Except PyErr α) >>= f) = .error e := rfl

theorem foldlM_append_except {σ α : Type} (f : σ → α → Except PyErr σ)
    (l₁ l₂ : List α) :
    ∀ s : σ, (l₁ ++ l₂).foldlM f s =
      match l₁.foldlM f s with
      | .ok s' => l₂.foldlM f s'
      | .error e => .error e := by
  induction l₁ with
  | nil => intro s; rfl
  | cons a as ih =>
    intro s
    simp only [List.cons_append, List.foldlM_cons]
    cases h : f s a with
    | ok s' =>
      rw [except_bind_ok, except_bind_ok, ih s']
    | error e =>
      rw [except_bind_error, except_bind_error]

theorem cleanTxnDate_cases (df : Bool) (t : Txn) :
    (∃ msg, cleanTxnDate df t = .error (.valueError msg)) ∨
    (∃ t', cleanTxnDate df t = .ok t' ∧ t'.Amount = t.Amount ∧
      t'.Amount2 = t.Amount2) := by
  by_cases hu : pyStrip (t.Date.getD "UNKNOWN") = "UNKNOWN"
  · right
    refine ⟨{ t with Date := some "UNKNOWN" }, ?_, rfl, rfl⟩
    simp only [cleanTxnDate]
    rw [if_neg (not_not_intro hu)]
  · cases hp : pyParseDate (pyStrip (t.Date.getD "UNKNOWN")) df with
    | ok r =>
      cases r with
      | some d =>
        right
        refine ⟨{ t with Date := some (strftimeYMD d) }, ?_, rfl, rfl⟩
        simp only [cleanTxnDate]
        rw [if_pos hu, hp]
      | none => exact absurd (pyParseDate_ok_none _ df hp) hu
    | error e =>
      left
      obtain rfl := pyParseDate_error_eq _ df e hp
      refine ⟨unrecognizedMsg (pyStrip (t.Date.getD "UNKNOWN")), ?_⟩
      simp only [cleanTxnDate]
      rw [if_pos hu, hp]

theorem cleanTxn_amount_sentinel (df : Bool) (acct : String) (t : Txn)
    (h : t.Amount = some "-" ∨ t.Amount = some " ") :
    ∃ msg, cleanTxn df acct t = .error (.valueError msg) := by
  rcases cleanTxnDate_cases df t with ⟨msg, hd⟩ | ⟨t', hd, hAm, _⟩
  · refine ⟨msg, ?_⟩
    simp only [cleanTxn]
    rw [hd, except_bind_error]
  · have hamt : cleanTxnAmount t' =
        .error (.valueError "Transaction amount is undefined.") := by
      rcases h with h' | h' <;>
        · rw [← hAm] at h'
          simp [cleanTxnAmount, h']
    refine ⟨"Transaction amount is undefined.", ?_⟩
    simp only [cleanTxn]
    rw [hd, except_bind_ok, hamt, except_bind_error]

theorem guessStep_aborts (st : GuessState) (t : Txn)
    (h : headIsDigit (t.Date.getD "UNKNOWN") = false) :
    ∃ e, guessFormatsStep st t = .error e := by
  by_cases hu : t.Date.getD "UNKNOWN" = "UNKNOWN"
  · refine ⟨.valueError "invalid literal for int() with base 10", ?_⟩
    simp only [guessFormatsStep]
    rw [hu]
    rfl
  · refine ⟨.valueError (unrecognizedMsg (t.Date.getD "UNKNOWN")), ?_⟩
    exact guessFormatsStep_parse_error st t _
      (pyParseDate_head_nondigit _ false hu h)

/-! ## Claim theorems -/

/-- C1: the claim says construction runs the full pipeline through the
Transaction Normalizer and the Statement Index.  It does not: `__init__`
parses, extracts and runs pass 1, but the `self._clean_txn_list(txn_list)`
call is commented out (source line 105), so after construction the statement
index is empty and no start/end date has been computed — even though running
`_clean_txn_list` on the same transaction list would index the transaction
under "20160325" and set both dates.  This theorem evaluates both facts at a
concrete well-formed input. -/
theorem c1_construction_skips_normalization :
    iifConverterInit "CHECKING" none false
      [{ Date := some "03/25/2016", Amount := some "5" }] =
      .ok ⟨false, none, "CHECKING", [], none, none⟩ ∧
    cleanTxnList false "CHECKING" "20991231"
      [{ Date := some "03/25/2016", Amount := some "5" }] =
      .ok ⟨[("20160325",
            [{ Date := some "20160325", Amount := some "5.00",
               Type' := some "CREDIT", Payee := some "Other Credit" }])],
           "20160325", "20160325"⟩ := by
  constructor
  · rfl
  · rfl

/-- C2 (counterexample): pass 1 is claimed never to raise, but a transaction
whose date string fails to parse makes `_parse_date` raise a `ValueError`
that `_guess_formats` does not catch: the scan aborts. -/
theorem c2_counterexample_pass1_raises :
    guessFormats ⟨false, none⟩ [{ Date := some "99/99/9999" }] =
      .error (.valueError (unrecognizedMsg "99/99/9999")) := by
  rfl

/-- C2 (amended): for every extracted transaction list, a transaction whose
date string fails to parse during pass 1 raises an uncaught `ValueError`
which aborts the format-detection scan (and hence construction); only the
transactions before it were scanned. -/
theorem c2_amended_parse_failure_aborts (st st2 : GuessState)
    (pre post : List Txn) (t : Txn) (e : PyErr)
    (h1 : pyParseDate (t.Date.getD "UNKNOWN") false = .error e)
    (h2 : guessFormats st pre = .ok st2) :
    guessFormats st (pre ++ t :: post) = .error e := by
  have hstep := guessFormatsStep_parse_error st2 t e h1
  simp only [guessFormats] at h2 ⊢
  rw [foldlM_append_except guessFormatsStep pre (t :: post), h2]
  show (t :: post).foldlM guessFormatsStep st2 = Except.error e
  simp only [List.foldlM_cons]
  rw [hstep, except_bind_error]

/-- C2 (witness): the amended theorem applied at a concrete one-transaction
list with the unparseable date "13/13/2013". -/
theorem c2_amended_witness :
    pyParseDate "13/13/2013" false =
      .error (.valueError (unrecognizedMsg "13/13/2013")) ∧
    guessFormats ⟨false, none⟩
      ([] ++ ({ Date := some "13/13/2013" } : Txn) :: []) =
      .error (.valueError (unrecognizedMsg "13/13/2013")) :=
  ⟨by rfl,
   c2_amended_parse_failure_aborts ⟨false, none⟩ ⟨false, none⟩ [] []
     { Date := some "13/13/2013" } _ (by rfl) (by rfl)⟩

/-- C3 (counterexample): for the scenario transaction (date "03/25/2016",
amount "-50.00", memo "Grocery", no type or payee) on a checking account
with day-first false, the normalized payee is not "Other Debit (Grocery)":
the memo branch of `_clean_txn_payee` fires before the "Other Debit" branch,
and the memo is then appended again. -/
theorem c3_counterexample_payee :
    resPayee (cleanTxn false "CHECKING"
      { Date := some "03/25/2016", Amount := some "-50.00",
        Memo := some "Grocery" }) ≠ some "Other Debit (Grocery)" := by
  decide

/-- C3 (amended): the scenario transaction normalizes to date "20160325",
amount "-50.00", type "DEBIT" — but payee "Grocery (Grocery)" (the payee is
taken from the memo, and the memo is appended in parentheses), not
"Other Debit (Grocery)". -/
theorem c3_amended_scenario :
    resDate (cleanTxn false "CHECKING"
      { Date := some "03/25/2016", Amount := some "-50.00",
        Memo := some "Grocery" }) = some "20160325" ∧
    resAmount (cleanTxn false "CHECKING"
      { Date := some "03/25/2016", Amount := some "-50.00",
        Memo := some "Grocery" }) = some "-50.00" ∧
    resType (cleanTxn false "CHECKING"
      { Date := some "03/25/2016", Amount := some "-50.00",
        Memo := some "Grocery" }) = some "DEBIT" ∧
    resPayee (cleanTxn false "CHECKING"
      { Date := some "03/25/2016", Amount := some "-50.00",
        Memo := some "Grocery" }) = some "Grocery (Grocery)" := by
  decide

/-- C4: the claim (and the comment block above `txn_types` in the source)
says a type matching an alias key is replaced by the table's canonical
value, e.g. "DBT" becomes "DEBIT" and "DEPOSIT" becomes "DEP".  The code
instead stores `txn_type.upper()` — the key itself — so "DBT" and "DEPOSIT"
survive unchanged even though the table maps them to "DEBIT" and "DEP". -/
theorem c4_alias_value_not_substituted :
    (cleanTxnType { Type' := some "DBT" }).Type' = some "DBT" ∧
    (cleanTxnType { Type' := some "DEPOSIT" }).Type' = some "DEPOSIT" ∧
    aliasValue "DBT" = some "DEBIT" ∧
    aliasValue "DEPOSIT" = some "DEP" := by
  decide

/-- C5 (counterexample): a transaction with the unparseable date
"99/99/9999" does not abort the conversion: `_clean_txn_list` catches the
`ValueError`, skips that transaction, and finishes successfully with only
the other transaction indexed. -/
theorem c5_counterexample_bad_date_not_fatal :
    isOkE (cleanTxnList false "CHECKING" "20250101"
      [{ Date := some "99/99/9999" },
       { Date := some "03/25/2016", Amount := some "5" }]) = true ∧
    resultKeys (cleanTxnList false "CHECKING" "20250101"
      [{ Date := some "99/99/9999" },
       { Date := some "03/25/2016", Amount := some "5" }]) =
      ["20160325"] := by
  decide

/-- C5 (amended): in pass 2 a present, non-placeholder date string that
cannot be parsed raises a `ValueError` scoped to that transaction only:
`_clean_txn_list` absorbs it, the transaction is dropped from the index,
and the batch continues — the error is not surfaced to the caller. -/
theorem c5_amended_bad_date_dropped (df : Bool) (acct : String)
    (m : TxnIndex) (t : Txn) (e : PyErr)
    (h1 : pyStrip (t.Date.getD "UNKNOWN") ≠ "UNKNOWN")
    (h2 : pyParseDate (pyStrip (t.Date.getD "UNKNOWN")) df = .error e) :
    cleanStep df acct m t = .ok m := by
  obtain rfl := pyParseDate_error_eq _ df e h2
  have hd : cleanTxnDate df t =
      .error (.valueError (unrecognizedMsg (pyStrip (t.Date.getD "UNKNOWN")))) := by
    simp only [cleanTxnDate]
    rw [if_pos h1, h2]
  have hct : cleanTxn df acct t =
      .error (.valueError (unrecognizedMsg (pyStrip (t.Date.getD "UNKNOWN")))) := by
    simp only [cleanTxn]
    rw [hd, except_bind_error]
  simp only [cleanStep]
  rw [hct]

/-- C5 (witness): the amended theorem at the concrete unparseable date
"99/99/9999" on an empty index. -/
theorem c5_amended_witness :
    cleanStep false "CHECKING" [] ({ Date := some "99/99/9999" } : Txn) =
      .ok [] :=
  c5_amended_bad_date_dropped false "CHECKING" []
    { Date := some "99/99/9999" } _ (by decide) (by rfl)

/-- C6 (counterexample): the claim says that when every transaction is
rejected the start and end dates fall back to the current date.  Instead,
for a nonempty input whose only transaction is rejected (amount "-"), the
guard `len(txn_list) > 0` still takes the sorted-dates branch and
`date_list[0]` raises an uncaught `IndexError`. -/
theorem c6_counterexample_all_rejected_raises :
    cleanTxnList false "CHECKING" "20250101" [{ Amount := some "-" }] =
      .error .indexError := by
  decide

/-- C6 (amended): the current-date fallback applies only when the input
transaction list itself is empty (then the index is empty and both dates are
today); when the input is nonempty and the step succeeds, the start date is
the minimum and the end date the maximum of the index's date keys under the
lexicographic string order (when the input is nonempty but nothing survives,
the step instead fails with an `IndexError`, as the counterexample shows). -/
theorem c6_amended_date_range (df : Bool) (acct today : String)
    (txns : List Txn) (res : CleanResult)
    (h : cleanTxnList df acct today txns = .ok res) :
    (txns = [] → res = ⟨[], today, today⟩) ∧
    (txns ≠ [] →
      (res.start_date ∈ res.txns_by_date.map Prod.fst ∧
       ∀ k ∈ res.txns_by_date.map Prod.fst,
         strLe res.start_date k = true) ∧
      (res.end_date ∈ res.txns_by_date.map Prod.fst ∧
       ∀ k ∈ res.txns_by_date.map Prod.fst,
         strLe k res.end_date = true)) := by
  cases hf : List.foldlM (cleanStep df acct) [] txns with
  | error e =>
    exfalso
    simp only [cleanTxnList] at h
    rw [hf, except_bind_error] at h
    exact absurd h (by simp)
  | ok idx =>
    simp only [cleanTxnList] at h
    rw [hf, except_bind_ok] at h
    constructor
    · intro he
      subst he
      rw [if_neg (by simp)] at h
      injection hf with hf'
      injection h with h'
      rw [← h', ← hf']
    · intro hne
      have hlen : txns.length > 0 := List.length_pos.mpr hne
      rw [if_pos hlen] at h
      cases hs : sortStr (idx.map Prod.fst) with
      | nil => rw [hs] at h; exact absurd h (by simp)
      | cons d rest =>
        rw [hs] at h
        injection h with h'
        subst h'
        have hpw := pairwise_sortStr (idx.map Prod.fst)
        rw [hs] at hpw
        have hmem : ∀ x : String, x ∈ d :: rest ↔ x ∈ idx.map Prod.fst := by
          intro x
          rw [← hs, mem_sortStr]
        refine ⟨⟨?_, ?_⟩, ?_, ?_⟩
        · exact (hmem d).mp (List.mem_cons_self d rest)
        · intro k hk
          exact pairwise_head_le d rest hpw k ((hmem k).mpr hk)
        · exact (hmem _).mp (getLastD_mem d rest d)
        · intro k hk
          exact pairwise_le_getLastD rest d d hpw k ((hmem k).mpr hk)

/-- C6 (witness): the amended theorem at the concrete empty input, whose
start and end date are both the injected current date. -/
theorem c6_amended_witness :
    (⟨[], "20250101", "20250101"⟩ : CleanResult) =
      ⟨[], "20250101", "20250101"⟩ :=
  (c6_amended_date_range false "CHECKING" "20250101" []
    ⟨[], "20250101", "20250101"⟩ (by rfl)).1 rfl

/-- C7 (counterexample): the check-number step classifies as a check on a
mere `re.search("\d+")` hit, so the number "A1" — which is not entirely
numeric — still sets the type to "CHECK". -/
theorem c7_counterexample_nonnumeric_check :
    (cleanTxnNumber "CHECKING" { Number := some "A1" }).Type' =
      some "CHECK" ∧
    "A1".data.all Char.isDigit = false := by
  decide

/-- C7 (amended): for a transaction whose number survives the drop rules
(not "N/A", not a masked card number, account not credit-card, not the
all-zero sentinel), the check-number step sets the type to "CHECK" if and
only if the stripped number string contains at least one digit (not: is
entirely numeric). -/
theorem c7_amended_contains_digit (acct : String) (t : Txn) (n : String)
    (hn : t.Number = some n)
    (h1 : pyStrip n ≠ "N/A")
    (h2 : startsList "XXXX-XXXX-XXXX".data (pyStrip n).data = false)
    (h3 : acct ≠ "CREDITCARD")
    (h4 : pyStrip n ≠ "0000000000") :
    cleanTxnNumber acct t =
      if (pyStrip n).data.any Char.isDigit then
        { t with Type' := some "CHECK" }
      else t := by
  simp only [cleanTxnNumber, hn, Option.getD_some]
  rw [if_neg h1]
  rw [if_neg (by simp [h2])]
  rw [if_neg (by rintro ⟨h', hcc⟩; exact h3 hcc)]
  rw [if_neg (by rintro ⟨h', hcc⟩; exact h4 h')]
  by_cases hun : pyStrip n = "UNKNOWN"
  · rw [if_neg (by rintro ⟨h', _⟩; exact h' hun)]
    rw [hun]
    rw [if_neg (by decide)]
  · by_cases hdig : (pyStrip n).data.any Char.isDigit = true
    · rw [if_pos ⟨hun, hdig⟩, if_pos hdig]
    · rw [if_neg (by rintro ⟨_, hd⟩; exact hdig hd),
        if_neg (by simpa using hdig)]

/-- C7 (witness): the amended theorem at the all-numeric number "0452" on a
savings account: the type is set to "CHECK". -/
theorem c7_amended_witness :
    cleanTxnNumber "SAVINGS" { Number := some "0452" } =
      { Number := some "0452", Type' := some "CHECK" } := by
  rw [c7_amended_contains_digit "SAVINGS" { Number := some "0452" } "0452"
    rfl (by decide) (by decide) (by decide) (by decide)]
  decide

/-- C8 (amended): a transaction whose amount is exactly "-" or " " raises
the amount `ValueError`, which the per-transaction loop of
`_clean_txn_list` absorbs: the transaction is never stored in the index and
the loop continues unchanged.  (The conversion as a whole can still fail
afterwards when no transaction at all survives — see the counterexample.) -/
theorem c8_amended_sentinel_amount_skipped (df : Bool) (acct : String)
    (m : TxnIndex) (t : Txn)
    (h : t.Amount = some "-" ∨ t.Amount = some " ") :
    cleanStep df acct m t = .ok m := by
  obtain ⟨msg, hc⟩ := cleanTxn_amount_sentinel df acct t h
  simp only [cleanStep]
  rw [hc]

/-- C8 (witness): the amended theorem at a concrete transaction with
amount "-" and an empty index. -/
theorem c8_amended_witness :
    cleanStep false "UNKNOWN" [] ({ Amount := some "-" } : Txn) = .ok [] :=
  c8_amended_sentinel_amount_skipped false "UNKNOWN" []
    { Amount := some "-" } (Or.inl rfl)

/-- C8 (counterexample): the claim's "such an amount never causes the
conversion as a whole to fail" is too strong: when the dropped transaction
was the only one, the later start-date computation of `_clean_txn_list`
raises an uncaught `IndexError`. -/
theorem c8_counterexample_conversion_fails :
    cleanTxnList false "UNKNOWN" "20240601" [{ Amount := some " " }] =
      .error .indexError := by
  decide

/-- C9: if any extracted transaction has no Date field (so the lookup yields
the sentinel "UNKNOWN"), or has a date string whose first character is not a
digit, the format-detection pass raises an uncaught `ValueError` — for the
missing-date sentinel it is exactly `int("")` on the empty leading-digit
prefix in `_check_date_format` — so pass 1, and with it construction of the
conversion, aborts. -/
theorem c9_bad_date_aborts_pass1 (st : GuessState) (txns : List Txn)
    (t : Txn) (ht : t ∈ txns)
    (hd : headIsDigit (t.Date.getD "UNKNOWN") = false) :
    ∃ e, guessFormats st txns = .error e := by
  revert ht
  induction txns generalizing st with
  | nil => intro ht; simp at ht
  | cons x xs ih =>
    intro ht
    rcases List.mem_cons.mp ht with rfl | hx
    · obtain ⟨e, he⟩ := guessStep_aborts st t hd
      exact ⟨e, by
        simp only [guessFormats, List.foldlM_cons]
        rw [he, except_bind_error]⟩
    · cases hs : guessFormatsStep st x with
      | error e =>
        exact ⟨e, by
          simp only [guessFormats, List.foldlM_cons]
          rw [hs, except_bind_error]⟩
      | ok st' =>
        obtain ⟨e, he⟩ := ih st' hx
        exact ⟨e, by
          simp only [guessFormats, List.foldlM_cons]
          rw [hs, except_bind_ok]
          exact he⟩

/-- C9 (witness): a one-transaction list whose transaction has no Date field
aborts pass 1. -/
theorem c9_witness :
    ∃ e, guessFormats ⟨false, none⟩ [({ } : Txn)] = .error e :=
  c9_bad_date_aborts_pass1 ⟨false, none⟩ [({ } : Txn)] { }
    (List.mem_singleton.mpr rfl) (by decide)

/-- C10: a record containing an empty field value (adjacent tab separators
or an empty final field) makes grammar parsing fail with an exception
instead of producing a transaction with an empty-string field: the
`dropQuotes` parse action indexes `tok[0]` unconditionally, raising
`IndexError` on the empty token. -/
theorem c10_empty_field_raises (line : String)
    (h : "" ∈ splitFields line) :
    parseRecordFields (splitFields line) = .error .indexError := by
  have main : ∀ fs : List String, "" ∈ fs →
      parseRecordFields fs = .error .indexError := by
    intro fs
    induction fs with
    | nil => intro h'; simp at h'
    | cons f fs' ih =>
      intro h'
      by_cases hf : f = ""
      · subst hf
        rfl
      · have h'' : "" ∈ fs' := by
          rcases List.mem_cons.mp h' with h0 | h1
          · exact absurd h0.symm hf
          · exact h1
        have hdq : ∃ o, dropQuotes f = .ok o := by
          cases hdata : f.data with
          | nil =>
            exfalso
            apply hf
            cases f with
            | mk l =>
              simp only [String.data] at hdata
              rw [hdata]
          | cons c cs =>
            unfold dropQuotes
            rw [hdata]
            dsimp only
            split
            · exact ⟨_, rfl⟩
            · exact ⟨_, rfl⟩
        obtain ⟨o, ho⟩ := hdq
        have happ : ∃ v, applyItemAction f = .ok v := by
          cases o with
          | some s => exact ⟨s, by unfold applyItemAction; rw [ho]⟩
          | none => exact ⟨f, by unfold applyItemAction; rw [ho]⟩
        obtain ⟨v, hv⟩ := happ
        simp only [parseRecordFields]
        rw [hv, except_bind_ok, ih h'', except_bind_error]
  exact main (splitFields line) h

/-- C10 (witness): the record line "a<tab><tab>b" tokenizes with an empty
middle field and its parse raises `IndexError`. -/
theorem c10_witness :
    ("" ∈ splitFields "a\t\tb") ∧
    parseRecordFields (splitFields "a\t\tb") = .error .indexError :=
  ⟨by decide, c10_empty_field_raises "a\t\tb" (by decide)⟩
